import Mathlib

/-!
Shallow embedding of `src/openxr/src/swapchain.rs` (the `Swapchain` wrapper of
the OpenXR swapchain API) together with the pieces of the surrounding crate it
uses (`sys` handle and info-struct types, the `raw::Instance` function-pointer
table, `cvt`, `Session`), which are declared outside `src/` and are therefore
modelled from the spec where noted.

Driver calls are made observable: every operation returns, next to its Rust
return value, the list of driver entry-point invocations it performed, in
order, each recording the exact arguments passed across the FFI boundary.
A Rust `panic!` (the `unwrap` in `set_name`) is modelled as `none`.
-/

set_option autoImplicit false

namespace XR

/-- `sys::Result`: the i32 status code returned by every driver entry point. -/
abbrev Status := Int

/-- `XR_SUCCESS`. -/
def SUCCESS : Status := 0

/-- `XR_TIMEOUT_EXPIRED`: a non-negative, non-error status. -/
def TIMEOUT_EXPIRED : Status := 1

/-- `XR_ERROR_RUNTIME_FAILURE`: a representative negative (error) status. -/
def ERROR_RUNTIME_FAILURE : Status := -2

/-- Modelled from the spec: `cvt`, the crate's status-to-`Result` conversion
(declared outside `src/`). §7 of the spec: a driver-reported failure status is
"propagated verbatim to the caller as a typed error carrying the status code",
while success statuses — including the distinguished non-failure timeout code —
are not errors; per the OpenXR convention the failure statuses are exactly the
negative ones. On success the status code itself is carried in the `Ok`. -/
def cvt (x : Status) : Except Status Status :=
  if 0 ≤ x then Except.ok x else Except.error x

/-- `sys::ObjectType` (only the variant `swapchain.rs` uses). -/
inductive ObjectType
  | SWAPCHAIN
deriving DecidableEq

/-- `sys::StructureType` tags for the info structs `swapchain.rs` builds. -/
inductive StructureType
  | DEBUG_UTILS_OBJECT_NAME_INFO_EXT
  | SWAPCHAIN_IMAGE_ACQUIRE_INFO
  | SWAPCHAIN_IMAGE_WAIT_INFO
  | SWAPCHAIN_IMAGE_RELEASE_INFO
deriving DecidableEq

/-- `sys::DebugUtilsObjectNameInfoEXT`. The `next` extension pointer, always
null in the source, is omitted; `object_name` holds the bytes of the `CString`
the pointer refers to. -/
structure DebugUtilsObjectNameInfoEXT where
  ty : StructureType
  object_type : ObjectType
  object_handle : Nat
  object_name : List Nat
deriving DecidableEq

/-- `sys::SwapchainImageAcquireInfo`: only a type tag (and an always-null
`next` pointer, omitted); it carries no configuration input. -/
structure SwapchainImageAcquireInfo where
  ty : StructureType
deriving DecidableEq

/-- `sys::SwapchainImageWaitInfo`: type tag plus the timeout, an i64 duration
in nanoseconds (`Duration`); the always-null `next` pointer is omitted. -/
structure SwapchainImageWaitInfo where
  ty : StructureType
  timeout : Int
deriving DecidableEq

/-- `sys::SwapchainImageReleaseInfo`: only a type tag (always-null `next`
omitted). -/
structure SwapchainImageReleaseInfo where
  ty : StructureType
deriving DecidableEq

/-- One driver entry-point invocation, recording the entry point and the
arguments passed to it. -/
inductive DriverCall
  | setDebugUtilsObjectName (instanceHandle : Nat) (info : DebugUtilsObjectNameInfoEXT)
  | acquireSwapchainImage (handle : Nat) (info : SwapchainImageAcquireInfo)
  | waitSwapchainImage (handle : Nat) (info : SwapchainImageWaitInfo)
  | releaseSwapchainImage (handle : Nat) (info : SwapchainImageReleaseInfo)
  | enumerateSwapchainImages (handle : Nat)
  | destroySwapchain (handle : Nat)
deriving DecidableEq

/-- The swapchain handle a driver call operates on (for the debug-name call,
the `object_handle` field of its info struct). -/
def DriverCall.targetHandle : DriverCall → Nat
  | setDebugUtilsObjectName _ info => info.object_handle
  | acquireSwapchainImage h _ => h
  | waitSwapchainImage h _ => h
  | releaseSwapchainImage h _ => h
  | enumerateSwapchainImages h => h
  | destroySwapchain h => h

/-- Whether a driver call is an invocation of the destroy-swapchain entry
point. -/
def DriverCall.isDestroy : DriverCall → Bool
  | destroySwapchain _ => true
  | _ => false

/-- Modelled from the spec: the `raw::Instance` function-pointer table
(declared outside `src/`) — "a table of entry points bound at session-creation
time, each a function taking fixed-layout argument structs and returning a
status code" (§6). `acquire_swapchain_image` also writes a u32 index through
its output parameter, and the enumerate entry point yields the backing image
array (image descriptors modelled as opaque numbers). -/
structure DriverFp where
  acquire_swapchain_image : Nat → SwapchainImageAcquireInfo → Status × Nat
  wait_swapchain_image : Nat → SwapchainImageWaitInfo → Status
  release_swapchain_image : Nat → SwapchainImageReleaseInfo → Status
  destroy_swapchain : Nat → Status
  enumerate_swapchain_images : Nat → Status × List Nat

/-- Modelled from the spec: the `XR_EXT_debug_utils` function-pointer table
(declared outside `src/`), present only when the extension was negotiated. -/
structure DebugUtilsFp where
  set_debug_utils_object_name : Nat → DebugUtilsObjectNameInfoEXT → Status

/-- Modelled from the spec: the instance's extension set (declared outside
`src/`); `ext_debug_utils` is `some` exactly when the debug-naming capability
was negotiated (§4.3). -/
structure ExtensionSet where
  ext_debug_utils : Option DebugUtilsFp

/-- Modelled from the spec: the `Instance` (declared outside `src/`): its raw
handle, its extension set and its driver function-pointer table, "resolved
once and shared by all swapchains derived from that session" (§9). -/
structure Instance where
  handle : Nat
  exts : ExtensionSet
  fp : DriverFp

/-- `Instance::as_raw`: the raw instance handle. -/
def Instance.as_raw (i : Instance) : Nat := i.handle

/-- Modelled from the spec: `Session` (declared outside `src/`), a shared
handle that "provides the Driver Interface" (§3); `inst` is the `Instance`
its `instance()` accessor returns. -/
structure Session where
  inst : Instance

/-- `CString::new` on the bytes of a `&str`: fails (and `unwrap` panics)
exactly when the bytes contain a NUL byte. Modelled from the Rust standard
library contract, which is outside this repository. -/
def cstring_new (bytes : List Nat) : Option (List Nat) :=
  if 0 ∈ bytes then none else some bytes

/-- The `Swapchain` struct of `swapchain.rs`: the owning session and the raw
swapchain handle (the zero-sized `PhantomData` marker is omitted). Names are
modelled as the byte lists of the `&str` arguments. -/
structure Swapchain where
  session : Session
  handle : Nat

/-- `Swapchain::from_raw`: adopts an existing handle, issuing no driver call
(hence the empty call list). -/
def Swapchain.from_raw (session : Session) (handle : Nat) : Swapchain × List DriverCall :=
  ({ session := session, handle := handle }, [])

/-- `Swapchain::as_raw`: the raw swapchain handle. -/
def Swapchain.as_raw (sc : Swapchain) : Nat := sc.handle

/-- `Swapchain::instance` (named `instanceOf` because `instance` is a Lean
keyword): `self.session.instance()`. -/
def Swapchain.instanceOf (sc : Swapchain) : Instance := sc.session.inst

/-- The private helper `Swapchain::fp`: `self.session.instance().fp()`. -/
def Swapchain.fp (sc : Swapchain) : DriverFp := sc.session.inst.fp

/-- `Swapchain::set_name`. When `ext_debug_utils` is loaded it builds the
name info struct and calls `set_debug_utils_object_name`, converting the
status via `cvt` and discarding the success code; otherwise it returns
`Ok(())` without any driver call. The `unwrap` on `CString::new` panics
(modelled as `none`) when the name contains a NUL byte. -/
def Swapchain.set_name (sc : Swapchain) (name : List Nat) :
    Option (Except Status Unit) × List DriverCall :=
  match sc.instanceOf.exts.ext_debug_utils with
  | some fp =>
    match cstring_new name with
    | none => (none, [])
    | some cname =>
      let info : DebugUtilsObjectNameInfoEXT :=
        { ty := StructureType.DEBUG_UTILS_OBJECT_NAME_INFO_EXT
          object_type := ObjectType.SWAPCHAIN
          object_handle := sc.as_raw
          object_name := cname }
      let st := fp.set_debug_utils_object_name sc.instanceOf.as_raw info
      (some ((cvt st).map fun _ => ()),
       [DriverCall.setDebugUtilsObjectName sc.instanceOf.as_raw info])
  | none => (some (Except.ok ()), [])

/-- Modelled from the spec: `Swapchain::enumerate_images` delegates to
`G::enumerate_swapchain_images`, a graphics-backend function declared outside
`src/`; per §4.2/§6 it queries the enumerate-images entry point with the
swapchain's handle for the fixed backing array. -/
def Swapchain.enumerate_images (sc : Swapchain) : Except Status (List Nat) × List DriverCall :=
  let r := sc.fp.enumerate_swapchain_images sc.as_raw
  ((cvt r.1).map fun _ => r.2, [DriverCall.enumerateSwapchainImages sc.as_raw])

/-- `Swapchain::acquire_image`: builds the (configuration-free) acquire info,
calls `acquire_swapchain_image` once with the swapchain's handle and an
output slot, and on success returns the index the driver wrote there. -/
def Swapchain.acquire_image (sc : Swapchain) : Except Status Nat × List DriverCall :=
  let info : SwapchainImageAcquireInfo := { ty := StructureType.SWAPCHAIN_IMAGE_ACQUIRE_INFO }
  let r := sc.fp.acquire_swapchain_image sc.as_raw info
  ((cvt r.1).map fun _ => r.2, [DriverCall.acquireSwapchainImage sc.as_raw info])

/-- `Swapchain::wait_image`: builds the wait info with the given timeout,
calls `wait_swapchain_image` once, converts the status via `cvt` with `?`,
and returns `Ok(())` — the success code, timeout included, is discarded. -/
def Swapchain.wait_image (sc : Swapchain) (timeout : Int) : Except Status Unit × List DriverCall :=
  let info : SwapchainImageWaitInfo :=
    { ty := StructureType.SWAPCHAIN_IMAGE_WAIT_INFO, timeout := timeout }
  let st := sc.fp.wait_swapchain_image sc.as_raw info
  ((cvt st).map fun _ => (), [DriverCall.waitSwapchainImage sc.as_raw info])

/-- `Swapchain::release_image`: builds the release info, calls
`release_swapchain_image` once, converts the status via `cvt` with `?`, and
returns `Ok(())`. -/
def Swapchain.release_image (sc : Swapchain) : Except Status Unit × List DriverCall :=
  let info : SwapchainImageReleaseInfo := { ty := StructureType.SWAPCHAIN_IMAGE_RELEASE_INFO }
  let st := sc.fp.release_swapchain_image sc.as_raw info
  ((cvt st).map fun _ => (), [DriverCall.releaseSwapchainImage sc.as_raw info])

/-- `Drop for Swapchain`: calls `destroy_swapchain` once with the swapchain's
handle; the returned status is ignored and nothing is propagated (`drop`
returns no value, so the call list is its only observable). -/
def Swapchain.drop (sc : Swapchain) : List DriverCall :=
  let _st := sc.fp.destroy_swapchain sc.as_raw
  [DriverCall.destroySwapchain sc.as_raw]

/-! ### Concrete driver fixtures, used to evaluate the operations -/

/-- A driver table returning the given statuses (and acquire output index). -/
def fpWith (acq : Status × Nat) (wa : Status) (rel : Status) (des : Status) : DriverFp :=
  { acquire_swapchain_image := fun _ _ => acq
    wait_swapchain_image := fun _ _ => wa
    release_swapchain_image := fun _ _ => rel
    destroy_swapchain := fun _ => des
    enumerate_swapchain_images := fun _ => (SUCCESS, []) }

/-- An extension set without `XR_EXT_debug_utils`. -/
def noExts : ExtensionSet := { ext_debug_utils := none }

/-- An extension set with `XR_EXT_debug_utils` loaded, its naming entry point
always succeeding. -/
def dbgExts : ExtensionSet :=
  { ext_debug_utils := some { set_debug_utils_object_name := fun _ _ => SUCCESS } }

/-- A swapchain over a given extension set and driver table. -/
def mkSwapchain (exts : ExtensionSet) (fp : DriverFp) (instHandle scHandle : Nat) : Swapchain :=
  { session := { inst := { handle := instHandle, exts := exts, fp := fp } }
    handle := scHandle }

/-- A swapchain whose session lacks the debug-utils extension. -/
def scNoExt : Swapchain := mkSwapchain noExts (fpWith (SUCCESS, 0) SUCCESS SUCCESS SUCCESS) 7 42

/-- A swapchain whose session has the debug-utils extension. -/
def scWithExt : Swapchain := mkSwapchain dbgExts (fpWith (SUCCESS, 0) SUCCESS SUCCESS SUCCESS) 7 8

/-- A swapchain whose driver reports `TIMEOUT_EXPIRED` from every wait. -/
def scWaitTimeout : Swapchain :=
  mkSwapchain noExts (fpWith (SUCCESS, 0) TIMEOUT_EXPIRED SUCCESS SUCCESS) 1 5

/-- A swapchain whose driver reports `SUCCESS` from every wait. -/
def scWaitSuccess : Swapchain :=
  mkSwapchain noExts (fpWith (SUCCESS, 0) SUCCESS SUCCESS SUCCESS) 1 5

/-- A swapchain whose driver destroys successfully. -/
def scDestroyOk : Swapchain :=
  mkSwapchain noExts (fpWith (SUCCESS, 0) SUCCESS SUCCESS SUCCESS) 1 9

/-- A swapchain whose driver reports `ERROR_RUNTIME_FAILURE` from destroy. -/
def scDestroyFail : Swapchain :=
  mkSwapchain noExts (fpWith (SUCCESS, 0) SUCCESS SUCCESS ERROR_RUNTIME_FAILURE) 1 9

/-! ### Theorems about the claims -/

/-- C1: dropping a `Swapchain` invokes the driver's destroy-swapchain entry
point exactly once, with the swapchain's own handle, and makes no other driver
call; `drop` is a total function of the swapchain value (no panic), and since
the component tracks no acquisition state the behaviour is the same whatever
images remain acquired-but-unreleased at that moment. -/
theorem drop_destroys_exactly_once (sc : Swapchain) :
    sc.drop = [DriverCall.destroySwapchain sc.handle] ∧
    sc.drop.countP (fun c => c.isDestroy) = 1 := by
  refine ⟨rfl, ?_⟩
  simp [Swapchain.drop, Swapchain.as_raw, DriverCall.isDestroy]

/-- C2: when the debug-utils capability is absent, `set_name` returns `Ok(())`
(in particular it does not panic) and issues no driver call, for every name. -/
theorem set_name_success_without_ext (sc : Swapchain) (name : List Nat)
    (h : sc.session.inst.exts.ext_debug_utils = none) :
    sc.set_name name = (some (Except.ok ()), []) := by
  simp [Swapchain.set_name, Swapchain.instanceOf, h]

/-- C2 witness. -/
theorem set_name_success_without_ext_witness :
    scNoExt.set_name [110, 97, 109, 101] = (some (Except.ok ()), []) :=
  set_name_success_without_ext scNoExt [110, 97, 109, 101] rfl

/-- C3: `wait_image` and `release_image` each make exactly one call to their
driver entry point (never retried), return an error exactly when the driver's
status is a failure (negative) one, and that error carries the driver's status
verbatim. -/
theorem wait_release_one_call_error_iff (sc : Swapchain) (timeout : Int) :
    sc.wait_image timeout =
      ((if 0 ≤ sc.fp.wait_swapchain_image sc.handle
            { ty := StructureType.SWAPCHAIN_IMAGE_WAIT_INFO, timeout := timeout }
        then Except.ok ()
        else Except.error (sc.fp.wait_swapchain_image sc.handle
            { ty := StructureType.SWAPCHAIN_IMAGE_WAIT_INFO, timeout := timeout })),
       [DriverCall.waitSwapchainImage sc.handle
          { ty := StructureType.SWAPCHAIN_IMAGE_WAIT_INFO, timeout := timeout }]) ∧
    sc.release_image =
      ((if 0 ≤ sc.fp.release_swapchain_image sc.handle
            { ty := StructureType.SWAPCHAIN_IMAGE_RELEASE_INFO }
        then Except.ok ()
        else Except.error (sc.fp.release_swapchain_image sc.handle
            { ty := StructureType.SWAPCHAIN_IMAGE_RELEASE_INFO })),
       [DriverCall.releaseSwapchainImage sc.handle
          { ty := StructureType.SWAPCHAIN_IMAGE_RELEASE_INFO }]) := by
  constructor <;>
  · simp only [Swapchain.wait_image, Swapchain.release_image, Swapchain.as_raw, Swapchain.fp, cvt]
    split <;> rfl

/-- C4 counterexample: with a concrete driver whose wait entry point reports
`TIMEOUT_EXPIRED`, `wait_image` returns `Ok(())` — the very same value as
with an otherwise identical driver reporting `SUCCESS` — so the caller
receives no distinguished "not ready" outcome and cannot tell a timeout
apart from an ordinary successful wait. -/
theorem wait_image_timeout_indistinguishable :
    (scWaitTimeout.wait_image 0).1 = Except.ok () ∧
    (scWaitTimeout.wait_image 0).1 = (scWaitSuccess.wait_image 0).1 :=
  ⟨rfl, rfl⟩

/-- C4 (amended): when the driver reports the timeout status, `wait_image`
returns the non-error outcome `Ok(())`; the success code is discarded by the
`?` conversion, so the outcome is identical to an ordinary successful wait
rather than distinguished from it. -/
theorem wait_image_timeout_returns_ok (sc : Swapchain) (timeout : Int)
    (h : sc.fp.wait_swapchain_image sc.handle
        { ty := StructureType.SWAPCHAIN_IMAGE_WAIT_INFO, timeout := timeout } = TIMEOUT_EXPIRED) :
    (sc.wait_image timeout).1 = Except.ok () := by
  have h2 : sc.session.inst.fp.wait_swapchain_image sc.handle
      { ty := StructureType.SWAPCHAIN_IMAGE_WAIT_INFO, timeout := timeout } = TIMEOUT_EXPIRED := h
  simp [Swapchain.wait_image, Swapchain.as_raw, Swapchain.fp, cvt, h2, TIMEOUT_EXPIRED, Except.map]

/-- C4 witness. -/
theorem wait_image_timeout_returns_ok_witness :
    (scWaitTimeout.wait_image 7).1 = Except.ok () :=
  wait_image_timeout_returns_ok scWaitTimeout 7 rfl

/-- C5: `acquire_image` makes exactly one acquire call, against the
swapchain's own handle, with a configuration-free info struct (just the type
tag); on a non-failure status it returns exactly the index the driver wrote
to the output parameter, and on a failure status it returns that status as
the error, unmodified. -/
theorem acquire_image_one_call_returns_driver_index (sc : Swapchain) :
    sc.acquire_image =
      ((if 0 ≤ (sc.fp.acquire_swapchain_image sc.handle
            { ty := StructureType.SWAPCHAIN_IMAGE_ACQUIRE_INFO }).1
        then Except.ok (sc.fp.acquire_swapchain_image sc.handle
            { ty := StructureType.SWAPCHAIN_IMAGE_ACQUIRE_INFO }).2
        else Except.error (sc.fp.acquire_swapchain_image sc.handle
            { ty := StructureType.SWAPCHAIN_IMAGE_ACQUIRE_INFO }).1),
       [DriverCall.acquireSwapchainImage sc.handle
          { ty := StructureType.SWAPCHAIN_IMAGE_ACQUIRE_INFO }]) := by
  simp only [Swapchain.acquire_image, Swapchain.as_raw, Swapchain.fp, cvt]
  split <;> rfl

/-- C6: the destroy status is ignored by `drop`: two swapchains with the same
handle produce the same drop behaviour whatever their drivers' destroy entry
points report, and `drop` has no error channel at all — nothing is propagated
and nothing is retried. -/
theorem drop_never_propagates_destroy_failure (sc₁ sc₂ : Swapchain)
    (h : sc₁.handle = sc₂.handle) : sc₁.drop = sc₂.drop := by
  simp [Swapchain.drop, Swapchain.as_raw, h]

/-- C6 witness: a driver that fails destroy with `ERROR_RUNTIME_FAILURE`
yields the same completed drop as one that succeeds. -/
theorem drop_never_propagates_destroy_failure_witness :
    scDestroyFail.drop = scDestroyOk.drop :=
  drop_never_propagates_destroy_failure scDestroyFail scDestroyOk rfl

/-- C7: `from_raw` issues no driver call, and `as_raw` on the result returns
exactly the adopted handle. -/
theorem from_raw_no_call_roundtrip (s : Session) (h : Nat) :
    (Swapchain.from_raw s h).2 = [] ∧ (Swapchain.from_raw s h).1.as_raw = h :=
  ⟨rfl, rfl⟩

/-- C8: every public operation is a pure function of the immutable
`Swapchain` value (mirroring `&self`, fields after a call are the fields
before it); every driver call any of them — and `drop` — makes targets
exactly the constructed handle; the accessors have no driver effect; and the
component keeps no per-instance protocol state: a `Swapchain` is nothing but
its `session` and `handle` fields. -/
theorem ops_pure_and_use_own_handle (sc : Swapchain) (name : List Nat) (timeout : Int) :
    ((sc.set_name name).2.all fun c => c.targetHandle == sc.handle) = true ∧
    (sc.acquire_image.2.all fun c => c.targetHandle == sc.handle) = true ∧
    ((sc.wait_image timeout).2.all fun c => c.targetHandle == sc.handle) = true ∧
    (sc.release_image.2.all fun c => c.targetHandle == sc.handle) = true ∧
    (sc.enumerate_images.2.all fun c => c.targetHandle == sc.handle) = true ∧
    (sc.drop.all fun c => c.targetHandle == sc.handle) = true ∧
    sc.as_raw = sc.handle ∧
    sc.instanceOf = sc.session.inst ∧
    (∀ a : Swapchain, a = ⟨a.session, a.handle⟩) := by
  refine ⟨?_, ?_, ?_, ?_, ?_, ?_, rfl, rfl, fun a => rfl⟩ <;>
  · simp only [Swapchain.set_name, Swapchain.acquire_image, Swapchain.wait_image,
      Swapchain.release_image, Swapchain.enumerate_images, Swapchain.drop,
      Swapchain.as_raw, Swapchain.instanceOf, Swapchain.fp]
    repeat' split
    all_goals simp [DriverCall.targetHandle, Swapchain.as_raw]

/-- C10: with the debug-utils capability present, `set_name` panics (the
`unwrap` on `CString::new`) exactly when the name contains a NUL byte; any
name free of NUL bytes never panics, capability or not. -/
theorem set_name_panics_iff_nul (sc : Swapchain) (name : List Nat) :
    (sc.session.inst.exts.ext_debug_utils.isSome = true → 0 ∈ name →
      (sc.set_name name).1 = none) ∧
    ((0 : Nat) ∉ name → (sc.set_name name).1.isSome = true) := by
  constructor
  · intro hext hnul
    cases h : sc.session.inst.exts.ext_debug_utils with
    | none => rw [h] at hext; simp at hext
    | some fp => simp [Swapchain.set_name, Swapchain.instanceOf, h, cstring_new, hnul]
  · intro hnul
    cases h : sc.session.inst.exts.ext_debug_utils with
    | none => simp [Swapchain.set_name, Swapchain.instanceOf, h]
    | some fp => simp [Swapchain.set_name, Swapchain.instanceOf, h, cstring_new, hnul]

/-- C10 witness: on a session with the capability, a name with an interior
NUL byte panics, and a NUL-free name does not. -/
theorem set_name_panics_iff_nul_witness :
    (scWithExt.set_name [110, 0, 109]).1 = none ∧
    (scWithExt.set_name [110, 97]).1.isSome = true :=
  ⟨(set_name_panics_iff_nul scWithExt [110, 0, 109]).1 rfl (by decide),
   (set_name_panics_iff_nul scWithExt [110, 97]).2 (by decide)⟩

end XR
